import Mathlib

/-!
Shallow embedding of the task-run execution core of `src/src/prefect/tasks.py`:
the state-proposal protocol (`propose_state`), the task-run state machine
(`Task._run`), task identity derivation (`Task.__init__`) and the invocation
dispatcher (`Task.__call__`).  Modules of the repository that `tasks.py` imports
but that are not part of the source tree (the states and responses schemas, the
hashing utilities, the context and futures modules) are modelled from the
specification and marked as such in their doc comments.
-/

namespace Prefect

/-- Modelled from the spec: the closed set of lifecycle type tags of a task-run
state: PENDING, RUNNING, COMPLETED, FAILED, RETRYING, SCHEDULED (the states
schema module `prefect/orion/schemas/states.py` is not under src/). -/
inductive StateType where
  | PENDING
  | RUNNING
  | COMPLETED
  | FAILED
  | RETRYING
  | SCHEDULED
  deriving DecidableEq, Repr

/-- Modelled from the spec: state-details attached to a state, holding, when
applicable, the scheduled resume timestamp (timestamps are modelled as integer
seconds). -/
structure StateDetails where
  scheduled_time : Option Int := none
  deriving DecidableEq, Repr

/-- Modelled from the spec: a snapshot of a task run's execution status: a type
tag, a human-readable message, an opaque result/error payload `data`, and
state-details.  `α` is the payload type (python `Any`). -/
structure State (α : Type) where
  type : StateType
  message : Option String := none
  data : Option α := none
  state_details : StateDetails := {}
  deriving DecidableEq, Repr

/-- Modelled from the spec: whether a state "indicates the run should execute".
RUNNING does; so does RETRYING, which the spec's transition diagram sends
"back to RUNNING-equivalent" and which scenario C assumes is accepted as
running-equivalent. -/
def State.is_running {α : Type} (s : State α) : Bool :=
  s.type = StateType.RUNNING ∨ s.type = StateType.RETRYING

/-- Whether a state is a SCHEDULED state (python `State.is_scheduled`,
modelled from the spec since the states schema module is not under src/). -/
def State.is_scheduled {α : Type} (s : State α) : Bool :=
  s.type = StateType.SCHEDULED

/-- Modelled from the spec: the freshly-constructed RETRYING state proposal
(python `Retrying()` from the states schema module, not under src/). -/
def Retrying (α : Type) : State α :=
  { type := StateType.RETRYING }

/-- Modelled from the spec: the remote authority's reply to a state proposal:
"{status: ACCEPT|ABORT|OTHER, details: {state?, state_details?}}".  On ACCEPT
the details may carry server-assigned state-details; on any other (OTHER)
verdict the details carry the authority's substituted state (the responses
schema module is not under src/). -/
inductive SetStateResponse (α : Type) where
  | accept (state_details : Option StateDetails)
  | abort
  | other (state : State α)
  deriving DecidableEq, Repr

/-- Function `propose_state` (src/src/prefect/tasks.py lines 15-30): send the
proposal to the remote authority; on ACCEPT merge any server-supplied
state-details into the proposed state and return it; on ABORT raise
`RuntimeError("ABORT is not yet handled")`; on any other verdict return the
server-substituted state.  The remote call is modelled by passing the
authority's response directly, and a python `raise` is `Except.error`. -/
def propose_state {α : Type} (response : SetStateResponse α) (state : State α) :
    Except String (State α) :=
  match response with
  | SetStateResponse.accept (some sd) => Except.ok { state with state_details := sd }
  | SetStateResponse.accept none => Except.ok state
  | SetStateResponse.abort => Except.error "ABORT is not yet handled"
  | SetStateResponse.other server_state => Except.ok server_state

/-- Terminal-state construction of `Task._run` (src/src/prefect/tasks.py lines
95-114): an exception raised by the callable becomes a FAILED state carrying the
exception as payload; a normal return becomes a COMPLETED state carrying the
return value as payload; each with its fixed diagnostic message. -/
def terminal_state {α : Type} (outcome : Except α α) : State α :=
  match outcome with
  | Except.error exc =>
      { type := StateType.FAILED
        message := some "Task run encountered an exception."
        data := some exc }
  | Except.ok result =>
      { type := StateType.COMPLETED
        message := some "Task run completed."
        data := some result }

/-- Message of the python `TypeError` that line 120 of src/src/prefect/tasks.py
raises when a SCHEDULED effective state carries no `scheduled_time` (subtracting
`pendulum.now()` from `None`). -/
def noneSubMsg : String :=
  "unsupported operand type(s) for -: 'NoneType' and 'DateTime'"

deriving instance DecidableEq for Except

/-- Observable event of one `Task._run` execution: an invocation of the
callable (with its outcome), a state proposal sent to the remote authority, or
a `time.sleep` of the given number of seconds. -/
inductive RunEvent (α : Type) where
  | ran (outcome : Except α α)
  | proposed (s : State α)
  | slept (seconds : Int)
  deriving DecidableEq, Repr

/-- Result of a `Task._run` execution: a normally returned state, a fatal
uncaught python exception (its message), or `stuck`, a model artifact meaning
the iteration fuel or the modelled environment was exhausted. -/
inductive RunOutcome (α : Type) where
  | ok (s : State α)
  | fatal (msg : String)
  | stuck
  deriving DecidableEq, Repr

/-- The `while state.is_running()` loop of `Task._run` (src/src/prefect/tasks.py
lines 93-125).  The callable, the remote authority and the clock are modelled by
`outcomes` (one entry per callable invocation), `responses` (one entry per state
proposal, consumed in order) and `nows` (one `pendulum.now()` reading per
scheduled wait); `fuel` bounds the number of loop iterations.  Returns the run
outcome together with the ordered trace of observable events. -/
def run_loop {α : Type} (fuel : Nat) (outcomes : List (Except α α))
    (responses : List (SetStateResponse α)) (nows : List Int)
    (state : State α) : RunOutcome α × List (RunEvent α) :=
  if state.is_running then
    match fuel with
    | 0 => (RunOutcome.stuck, [])
    | Nat.succ fuel =>
      match outcomes with
      | [] => (RunOutcome.stuck, [])
      | o :: outcomes =>
        let ts := terminal_state o
        match responses with
        | [] => (RunOutcome.stuck, [RunEvent.ran o])
        | r1 :: responses =>
          match propose_state r1 ts with
          | Except.error msg => (RunOutcome.fatal msg, [RunEvent.ran o, RunEvent.proposed ts])
          | Except.ok s1 =>
            if s1.is_scheduled then
              match s1.state_details.scheduled_time with
              | none => (RunOutcome.fatal noneSubMsg, [RunEvent.ran o, RunEvent.proposed ts])
              | some t =>
                match nows with
                | [] => (RunOutcome.stuck, [RunEvent.ran o, RunEvent.proposed ts])
                | n :: nows =>
                  let wait_time := t - n
                  let slept := max wait_time 0
                  match responses with
                  | [] =>
                      (RunOutcome.stuck,
                       [RunEvent.ran o, RunEvent.proposed ts, RunEvent.slept slept])
                  | r2 :: responses =>
                    match propose_state r2 (Retrying α) with
                    | Except.error msg =>
                        (RunOutcome.fatal msg,
                         [RunEvent.ran o, RunEvent.proposed ts, RunEvent.slept slept,
                          RunEvent.proposed (Retrying α)])
                    | Except.ok s2 =>
                      let r := run_loop fuel outcomes responses nows s2
                      (r.1,
                       RunEvent.ran o :: RunEvent.proposed ts :: RunEvent.slept slept ::
                         RunEvent.proposed (Retrying α) :: r.2)
            else
              let r := run_loop fuel outcomes responses nows s1
              (r.1, RunEvent.ran o :: RunEvent.proposed ts :: r.2)
  else
    (RunOutcome.ok state, [])

/-- Method `Task._run` (src/src/prefect/tasks.py lines 78-125): propose the
PENDING to RUNNING transition, then run the `while state.is_running()` loop
from the effective state the authority returned.  Environment modelled as in
`run_loop`; the first entry of `responses` answers the initial RUNNING
proposal. -/
def _run {α : Type} (fuel : Nat) (outcomes : List (Except α α))
    (responses : List (SetStateResponse α)) (nows : List Int) :
    RunOutcome α × List (RunEvent α) :=
  match responses with
  | [] => (RunOutcome.stuck, [])
  | r0 :: responses =>
    match propose_state r0 ({ type := StateType.RUNNING } : State α) with
    | Except.error msg =>
        (RunOutcome.fatal msg,
         [RunEvent.proposed ({ type := StateType.RUNNING } : State α)])
    | Except.ok s =>
      let r := run_loop fuel outcomes responses nows s
      (r.1, RunEvent.proposed ({ type := StateType.RUNNING } : State α) :: r.2)

/-- Modelled from the spec: the underlying python callable as seen by identity
derivation — its fully-qualified name (`to_qualified_name`), its `__name__`, and
its docstring (`inspect.getdoc`); the hashing utilities module is not under
src/.  Actual execution of the callable is modelled separately, by the outcome
lists fed to `run_loop`. -/
structure Callable where
  qualified_name : String
  py_name : String
  doc : Option String
  deriving DecidableEq, Repr

/-- Modelled from the spec: `stable_hash` — a deterministic, content-based hash
of its string components (`prefect/utilities/hashing.py` is not under src/);
modelled as an injective encoding of the component list. -/
def stable_hash (components : List String) : String :=
  String.intercalate "//" components

/-- Class `Task` (src/src/prefect/tasks.py lines 33-76): a registered unit of
work.  The python `set` of tags is a `Finset`; `dynamic_key` is the per-task
invocation counter. -/
structure Task where
  name : String
  fn : Callable
  description : Option String
  tags : Finset String
  task_key : String
  dynamic_key : Nat
  max_retries : Nat
  retry_delay_seconds : Nat
  deriving DecidableEq

/-- Method `Task.__init__` (src/src/prefect/tasks.py lines 38-76).  `fn` is
optional so the `if not fn` TypeError check is representable (a non-callable
`fn` is unrepresentable here, since every `Callable` value is callable); python
`name or fn.__name__` and `description or inspect.getdoc(fn)` treat the empty
string as absent.  The task key hashes the name, the callable's qualified name
and `str(sorted(self.tags or []))`; `dynamic_key` starts at 0. -/
def Task.init (name : Option String) (fn : Option Callable)
    (description : Option String) (tags : List String)
    (max_retries : Nat) (retry_delay_seconds : Nat) : Except String Task :=
  match fn with
  | none => Except.error "__init__() missing 1 required argument: 'fn'"
  | some f =>
    let name := match name with
      | none => f.py_name
      | some n => if n = "" then f.py_name else n
    let description := match description with
      | none => f.doc
      | some d => if d = "" then f.doc else d
    let tagset : Finset String := tags.toFinset
    Except.ok
      { name := name
        fn := f
        description := description
        tags := tagset
        task_key :=
          stable_hash [name, f.qualified_name, toString (tagset.sort (fun a b => a ≤ b))]
        dynamic_key := 0
        max_retries := max_retries
        retry_delay_seconds := retry_delay_seconds }

/-- Modelled from the spec: the handle returned by executor submission,
resolving to the run's terminal state; identified here by the task-run id it
tracks (the futures module is not under src/). -/
structure PrefectFuture where
  task_run_id : Nat
  deriving DecidableEq, Repr

/-- Modelled from the spec: the ambient flow-execution context that
`Task.__call__` consumes — the flow-run identifier, and the task-run identifier
the remote authority will assign at registration (the context and client
modules are not under src/; run identifiers are modelled as naturals). -/
structure FlowRunContext where
  flow_run_id : Nat
  next_task_run_id : Nat
  deriving DecidableEq, Repr

/-- Observable client/executor call made by `Task.__call__`, in order:
registration of a new task run, the PENDING state proposal, and the executor
submission. -/
inductive CallEvent where
  | create_task_run (task_key : String) (dynamic_key : Nat) (flow_run_id : Nat)
  | set_task_run_state (task_run_id : Nat) (type : StateType)
  | submit (task_run_id : Nat)
  deriving DecidableEq, Repr

/-- Method `Task.__call__` (src/src/prefect/tasks.py lines 129-164): raise a
usage error when no flow-run context is active, or when already inside a
task-run context; otherwise register a task run, propose PENDING, submit the
run to the executor, increment `dynamic_key`, and return the future.  Returns
the task as left by the call, the ordered client/executor calls made, and
either the future or the usage error raised. -/
def Task.call (self : Task) (flow_run_context : Option FlowRunContext)
    (inside_task_run_context : Bool) :
    Task × List CallEvent × Except String PrefectFuture :=
  match flow_run_context with
  | none => (self, [], Except.error "Tasks cannot be called outside of a flow.")
  | some ctx =>
    if inside_task_run_context then
      (self, [],
       Except.error
         "Tasks cannot be called from within tasks. Did you mean to call this task in a flow?")
    else
      let task_run_id := ctx.next_task_run_id
      ({ self with dynamic_key := self.dynamic_key + 1 },
       [CallEvent.create_task_run self.task_key self.dynamic_key ctx.flow_run_id,
        CallEvent.set_task_run_state task_run_id StateType.PENDING,
        CallEvent.submit task_run_id],
       Except.ok { task_run_id := task_run_id })

/-- Iterated successful invocation: `n` successive `Task.__call__`s under an
active flow-run context and no task-run context, each acting on the task the
previous call left behind. -/
def Task.callN (ctx : FlowRunContext) : Nat → Task → Task
  | 0, t => t
  | Nat.succ n, t => Task.callN ctx n (Task.call t (some ctx) false).1

/-- Well-formedness of an authority response, from the spec's data-model
invariant "SCHEDULED states always carry a future timestamp": a substituted
SCHEDULED state must carry a `scheduled_time`. -/
def ResponseWF {α : Type} : SetStateResponse α → Bool
  | SetStateResponse.other s => !s.is_scheduled || s.state_details.scheduled_time.isSome
  | _ => true

/-- Concrete callable used to instantiate theorems. -/
def demoCallable : Callable :=
  { qualified_name := "demo.double", py_name := "double", doc := none }

/-- Concrete flow-run context used to instantiate theorems. -/
def demoCtx : FlowRunContext :=
  { flow_run_id := 7, next_task_run_id := 3 }

/-- Concrete task used to instantiate theorems. -/
def demoTask : Task :=
  { name := "double", fn := demoCallable, description := none, tags := ∅,
    task_key := "k", dynamic_key := 0, max_retries := 0, retry_delay_seconds := 0 }

/-- Concrete SCHEDULED state (with a scheduled timestamp) used to instantiate
theorems. -/
def schedState (t : Int) : State Nat :=
  { type := StateType.SCHEDULED, state_details := { scheduled_time := some t } }

/-- Concrete PENDING state used to instantiate theorems. -/
def pendingState : State Nat :=
  { type := StateType.PENDING }

/-- The only error `propose_state` can raise is the ABORT RuntimeError. -/
theorem propose_state_error_msg {α : Type} {r : SetStateResponse α} {s : State α}
    {msg : String} (h : propose_state r s = Except.error msg) :
    msg = "ABORT is not yet handled" := by
  cases r with
  | accept sd => cases sd <;> simp [propose_state] at h
  | abort => simpa [propose_state, eq_comm] using h
  | other s' => simp [propose_state] at h

/-- A terminal proposal (COMPLETED or FAILED) is never a SCHEDULED state. -/
theorem terminal_state_not_scheduled {α : Type} (o : Except α α) :
    (terminal_state o).is_scheduled = false := by
  cases o <;> rfl

/-- If proposing a non-SCHEDULED state yields a SCHEDULED effective state, the
authority's verdict was OTHER with that state substituted. -/
theorem propose_state_ok_scheduled {α : Type} {r : SetStateResponse α} {ts s1 : State α}
    (hts : ts.is_scheduled = false) (h : propose_state r ts = Except.ok s1)
    (hs : s1.is_scheduled = true) : r = SetStateResponse.other s1 := by
  cases r with
  | accept sd =>
      cases sd with
      | none =>
          simp [propose_state] at h
          subst h
          rw [hts] at hs
          exact absurd hs (by simp)
      | some sd =>
          simp [propose_state] at h
          subst h
          simp [State.is_scheduled] at hs
          simp [State.is_scheduled, hs] at hts
  | abort => simp [propose_state] at h
  | other s' =>
      simp [propose_state] at h
      rw [h]

/-- The run loop returns a non-running state unchanged, without invoking the
callable (the `while` condition fails immediately). -/
theorem run_loop_not_running {α : Type} (fuel : Nat) (outcomes : List (Except α α))
    (responses : List (SetStateResponse α)) (nows : List Int) (s : State α)
    (h : s.is_running = false) :
    run_loop fuel outcomes responses nows s = (RunOutcome.ok s, []) := by
  rw [run_loop.eq_def]
  simp [h]

/-- Combined structural invariants of the run loop, by induction on the fuel:
a normally returned state never satisfies the running check; every recorded
sleep is nonnegative; a fatal error is the ABORT RuntimeError or the TypeError
from a SCHEDULED state lacking a timestamp; and under well-formed authority
responses a fatal error can only be the ABORT RuntimeError. -/
theorem run_loop_invariants {α : Type} (fuel : Nat) :
    ∀ (outcomes : List (Except α α)) (responses : List (SetStateResponse α))
      (nows : List Int) (s : State α),
      (∀ s', (run_loop fuel outcomes responses nows s).1 = RunOutcome.ok s' →
          s'.is_running = false) ∧
      (∀ d, RunEvent.slept d ∈ (run_loop fuel outcomes responses nows s).2 → 0 ≤ d) ∧
      (∀ msg, (run_loop fuel outcomes responses nows s).1 = RunOutcome.fatal msg →
          msg = "ABORT is not yet handled" ∨ msg = noneSubMsg) ∧
      ((∀ r ∈ responses, ResponseWF r = true) →
        ∀ msg, (run_loop fuel outcomes responses nows s).1 = RunOutcome.fatal msg →
          msg = "ABORT is not yet handled") := by
  induction fuel with
  | zero =>
      intro outcomes responses nows s
      by_cases hr : s.is_running = true
      · simp [run_loop, hr]
      · have hr' : s.is_running = false := by simpa using hr
        rw [run_loop_not_running 0 outcomes responses nows s hr']
        refine ⟨?_, ?_, ?_, ?_⟩
        · intro s' h
          exact (RunOutcome.ok.inj h) ▸ hr'
        · intro d h
          simp at h
        · intro msg h
          simp at h
        · intro _ msg h
          simp at h
  | succ fuel ih =>
      intro outcomes responses nows s
      by_cases hr : s.is_running = true
      case neg =>
        have hr' : s.is_running = false := by simpa using hr
        rw [run_loop_not_running (fuel + 1) outcomes responses nows s hr']
        refine ⟨?_, ?_, ?_, ?_⟩
        · intro s' h
          exact (RunOutcome.ok.inj h) ▸ hr'
        · intro d h
          simp at h
        · intro msg h
          simp at h
        · intro _ msg h
          simp at h
      case pos =>
        rcases outcomes with _ | ⟨o, outcomes⟩
        · simp [run_loop, hr]
        rcases responses with _ | ⟨r1, responses⟩
        · simp [run_loop, hr]
        rcases hps : propose_state r1 (terminal_state o) with ⟨msg1⟩ | ⟨s1⟩
        · refine ⟨?_, ?_, ?_, ?_⟩ <;>
            simp only [run_loop, hr, hps, if_true, List.mem_cons]
          · intro s' h
            simp at h
          · intro d h
            simp at h
          · intro msg h
            simp only [RunOutcome.fatal.injEq] at h
            subst h
            exact Or.inl (propose_state_error_msg hps)
          · intro _ msg h
            simp only [RunOutcome.fatal.injEq] at h
            subst h
            exact propose_state_error_msg hps
        by_cases hsch : s1.is_scheduled = true
        case neg =>
          have hsch' : s1.is_scheduled = false := by simpa using hsch
          obtain ⟨ih1, ih2, ih3, ih4⟩ := ih outcomes responses nows s1
          refine ⟨?_, ?_, ?_, ?_⟩ <;>
            simp only [run_loop, hr, hps, hsch', if_true, Bool.false_eq_true, if_false]
          · intro s' h
            exact ih1 s' h
          · intro d h
            simp only [List.mem_cons] at h
            rcases h with h | h | h
            · exact absurd h (by simp)
            · exact absurd h (by simp)
            · exact ih2 d h
          · intro msg h
            exact ih3 msg h
          · intro hwf msg h
            exact ih4 (fun r hmem => hwf r (List.mem_cons_of_mem _ hmem)) msg h
        case pos =>
          rcases hst : s1.state_details.scheduled_time with _ | ⟨t⟩
          · refine ⟨?_, ?_, ?_, ?_⟩ <;>
              simp only [run_loop, hr, hps, hsch, hst, if_true]
            · intro s' h
              simp at h
            · intro d h
              simp at h
            · intro msg h
              simp only [RunOutcome.fatal.injEq] at h
              subst h
              exact Or.inr rfl
            · intro hwf msg h
              have hr1 : r1 = SetStateResponse.other s1 :=
                propose_state_ok_scheduled (terminal_state_not_scheduled o) hps hsch
              have hwf1 := hwf r1 (List.mem_cons_self _ _)
              rw [hr1] at hwf1
              simp [ResponseWF, hsch, hst] at hwf1
          rcases nows with _ | ⟨n, nows⟩
          · refine ⟨?_, ?_, ?_, ?_⟩ <;>
              simp only [run_loop, hr, hps, hsch, hst, if_true]
            · intro s' h
              simp at h
            · intro d h
              simp at h
            · intro msg h
              simp at h
            · intro _ msg h
              simp at h
          rcases responses with _ | ⟨r2, responses⟩
          · refine ⟨?_, ?_, ?_, ?_⟩ <;>
              simp only [run_loop, hr, hps, hsch, hst, if_true]
            · intro s' h
              simp at h
            · intro d h
              simp only [List.mem_cons, List.not_mem_nil, or_false] at h
              rcases h with h | h | h
              · exact absurd h (by simp)
              · exact absurd h (by simp)
              · rw [RunEvent.slept.inj h]
                exact le_max_right _ _
            · intro msg h
              simp at h
            · intro _ msg h
              simp at h
          rcases hps2 : propose_state r2 (Retrying α) with ⟨msg2⟩ | ⟨s2⟩
          · refine ⟨?_, ?_, ?_, ?_⟩ <;>
              simp only [run_loop, hr, hps, hsch, hst, hps2, if_true]
            · intro s' h
              simp at h
            · intro d h
              simp only [List.mem_cons, List.not_mem_nil, or_false] at h
              rcases h with h | h | h | h
              · exact absurd h (by simp)
              · exact absurd h (by simp)
              · rw [RunEvent.slept.inj h]
                exact le_max_right _ _
              · exact absurd h (by simp)
            · intro msg h
              simp only [RunOutcome.fatal.injEq] at h
              subst h
              exact Or.inl (propose_state_error_msg hps2)
            · intro _ msg h
              simp only [RunOutcome.fatal.injEq] at h
              subst h
              exact propose_state_error_msg hps2
          · obtain ⟨ih1, ih2, ih3, ih4⟩ := ih outcomes responses nows s2
            refine ⟨?_, ?_, ?_, ?_⟩ <;>
              simp only [run_loop, hr, hps, hsch, hst, hps2, if_true]
            · intro s' h
              exact ih1 s' h
            · intro d h
              simp only [List.mem_cons] at h
              rcases h with h | h | h | h | h
              · exact absurd h (by simp)
              · exact absurd h (by simp)
              · rw [RunEvent.slept.inj h]
                exact le_max_right _ _
              · exact absurd h (by simp)
              · exact ih2 d h
            · intro msg h
              exact ih3 msg h
            · intro hwf msg h
              exact ih4
                (fun r hmem =>
                  hwf r (List.mem_cons_of_mem _ (List.mem_cons_of_mem _ hmem)))
                msg h

/-- Lift of `run_loop_invariants` to `Task._run`: the initial RUNNING proposal
is answered first, then the loop invariants apply. -/
theorem _run_invariants {α : Type} (fuel : Nat) (outcomes : List (Except α α))
    (responses : List (SetStateResponse α)) (nows : List Int) :
    (∀ s', (_run fuel outcomes responses nows).1 = RunOutcome.ok s' →
        s'.is_running = false) ∧
    (∀ d, RunEvent.slept d ∈ (_run fuel outcomes responses nows).2 → 0 ≤ d) ∧
    (∀ msg, (_run fuel outcomes responses nows).1 = RunOutcome.fatal msg →
        msg = "ABORT is not yet handled" ∨ msg = noneSubMsg) ∧
    ((∀ r ∈ responses, ResponseWF r = true) →
      ∀ msg, (_run fuel outcomes responses nows).1 = RunOutcome.fatal msg →
        msg = "ABORT is not yet handled") := by
  rcases responses with _ | ⟨r0, responses⟩
  · refine ⟨?_, ?_, ?_, ?_⟩ <;> simp [_run]
  rcases hps : propose_state r0 ({ type := StateType.RUNNING } : State α)
    with ⟨msg0⟩ | ⟨s0⟩
  · refine ⟨?_, ?_, ?_, ?_⟩ <;> simp only [_run, hps]
    · intro s' h
      simp at h
    · intro d h
      simp at h
    · intro msg h
      simp only [RunOutcome.fatal.injEq] at h
      subst h
      exact Or.inl (propose_state_error_msg hps)
    · intro _ msg h
      simp only [RunOutcome.fatal.injEq] at h
      subst h
      exact propose_state_error_msg hps
  · obtain ⟨ih1, ih2, ih3, ih4⟩ := run_loop_invariants fuel outcomes responses nows s0
    refine ⟨?_, ?_, ?_, ?_⟩ <;> simp only [_run, hps]
    · intro s' h
      exact ih1 s' h
    · intro d h
      simp only [List.mem_cons] at h
      rcases h with h | h
      · exact absurd h (by simp)
      · exact ih2 d h
    · intro msg h
      exact ih3 msg h
    · intro hwf msg h
      exact ih4 (fun r hmem => hwf r (List.mem_cons_of_mem _ hmem)) msg h

/-- One full pass of the loop through the scheduled branch: when the effective
state for the terminal proposal is SCHEDULED with timestamp `t` and the clock
reads `n`, the machine sleeps `max (t - n) 0` seconds, proposes RETRYING, and
continues the loop (running-check first) from the RETRYING proposal's effective
state. -/
theorem run_loop_scheduled_step {α : Type} (fuel : Nat) (o : Except α α)
    (outcomes : List (Except α α)) (r1 r2 : SetStateResponse α)
    (responses : List (SetStateResponse α)) (n t : Int) (nows : List Int)
    (state s1 s2 : State α)
    (hr : state.is_running = true)
    (hps : propose_state r1 (terminal_state o) = Except.ok s1)
    (hsch : s1.is_scheduled = true)
    (hst : s1.state_details.scheduled_time = some t)
    (hps2 : propose_state r2 (Retrying α) = Except.ok s2) :
    run_loop (fuel + 1) (o :: outcomes) (r1 :: r2 :: responses) (n :: nows) state
      = ((run_loop fuel outcomes responses nows s2).1,
         RunEvent.ran o :: RunEvent.proposed (terminal_state o) ::
           RunEvent.slept (max (t - n) 0) :: RunEvent.proposed (Retrying α) ::
           (run_loop fuel outcomes responses nows s2).2) := by
  conv_lhs => rw [run_loop.eq_def]
  simp [hr, hps, hsch, hst, hps2]

/-- Each successful call adds exactly one to the dynamic-key counter, so `n`
successful calls add `n`. -/
theorem callN_dynamic_key (ctx : FlowRunContext) :
    ∀ (n : Nat) (t : Task), (Task.callN ctx n t).dynamic_key = t.dynamic_key + n := by
  intro n
  induction n with
  | zero =>
      intro t
      simp [Task.callN]
  | succ n ih =>
      intro t
      rw [Task.callN, ih]
      simp [Task.call]
      omega

/-- C3: `propose_state` with an ACCEPT verdict and no server-supplied
state-details returns the exact proposed state unchanged; with ACCEPT and
server-supplied state-details it returns the proposed state with those details
merged in, the payload `data` (and the type and message) untouched. -/
theorem propose_state_accept_spec {α : Type} (state : State α) (sd : StateDetails) :
    propose_state (SetStateResponse.accept none) state = Except.ok state ∧
    propose_state (SetStateResponse.accept (some sd)) state
      = Except.ok { state with state_details := sd } ∧
    ({ state with state_details := sd } : State α).data = state.data ∧
    ({ state with state_details := sd } : State α).type = state.type ∧
    ({ state with state_details := sd } : State α).message = state.message :=
  ⟨rfl, rfl, rfl, rfl, rfl⟩

/-- C4: `propose_state` with an OTHER verdict returns the server-substituted
state verbatim, discarding the locally proposed state. -/
theorem propose_state_other_spec {α : Type} (server_state state : State α) :
    propose_state (SetStateResponse.other server_state) state
      = Except.ok server_state :=
  rfl

/-- C5: `propose_state` with an ABORT verdict raises the fatal RuntimeError
and never returns a state. -/
theorem propose_state_abort_spec {α : Type} (state : State α) :
    propose_state SetStateResponse.abort state
      = Except.error "ABORT is not yet handled" :=
  rfl

/-- C6: tasks constructed with identical name, identical underlying callable
identity and equal tag sets — regardless of tag ordering or construction
order — derive identical task keys; the key depends only on the name, the
callable identity and the sorted tags (call-time arguments play no part in
construction). -/
theorem task_key_stable (name : Option String) (f1 f2 : Callable)
    (d1 d2 : Option String) (tags1 tags2 : List String) (m1 m2 r1 r2 : Nat)
    (hq : f1.qualified_name = f2.qualified_name) (hn : f1.py_name = f2.py_name)
    (htags : tags1.toFinset = tags2.toFinset) :
    (Task.init name (some f1) d1 tags1 m1 r1).map Task.task_key
      = (Task.init name (some f2) d2 tags2 m2 r2).map Task.task_key := by
  simp only [Task.init, Except.map]
  rw [hq, hn, htags]

/-- Witness for C6: concrete tag lists that differ in ordering and
multiplicity but denote the same tag set give the same task key. -/
theorem task_key_stable_witness :
    (Task.init (some "t") (some demoCallable) none ["b", "a"] 0 0).map Task.task_key
      = (Task.init (some "t") (some demoCallable) (some "d") ["a", "b", "a"] 1 2).map
          Task.task_key :=
  task_key_stable (some "t") demoCallable demoCallable none (some "d")
    ["b", "a"] ["a", "b", "a"] 0 1 0 2 rfl rfl (by decide)

/-- C7: calling a task with no active flow-run context raises a usage error
with no client call ever made (registration is never observed); calling while
inside a task-run context raises a usage error with a distinct message, also
before any client call. -/
theorem task_call_usage_errors (self : Task) (ctx : FlowRunContext) (b : Bool) :
    Task.call self none b
      = (self, [], Except.error "Tasks cannot be called outside of a flow.") ∧
    Task.call self (some ctx) true
      = (self, [],
         Except.error
           "Tasks cannot be called from within tasks. Did you mean to call this task in a flow?") ∧
    ("Tasks cannot be called outside of a flow." : String)
      ≠ "Tasks cannot be called from within tasks. Did you mean to call this task in a flow?" :=
  ⟨rfl, rfl, by decide⟩

/-- Witness for C7 at a concrete task. -/
theorem task_call_usage_errors_witness :
    Task.call demoTask none false
      = (demoTask, [], Except.error "Tasks cannot be called outside of a flow.") :=
  (task_call_usage_errors demoTask demoCtx false).1

/-- C8: when the effective state returned for the initial RUNNING proposal is
not a running state, the callable is never invoked (the trace holds only the
initial proposal) and `_run` returns that effective state immediately; the
loop body runs only while the effective state is running (a non-running state
exits the loop at once). -/
theorem task_run_non_running_entry {α : Type} (fuel : Nat)
    (outcomes : List (Except α α)) (r0 : SetStateResponse α)
    (responses : List (SetStateResponse α)) (nows : List Int) (s : State α)
    (hps : propose_state r0 ({ type := StateType.RUNNING } : State α) = Except.ok s)
    (hnr : s.is_running = false) :
    _run fuel outcomes (r0 :: responses) nows
      = (RunOutcome.ok s,
         [RunEvent.proposed ({ type := StateType.RUNNING } : State α)]) ∧
    run_loop fuel outcomes responses nows s = (RunOutcome.ok s, []) := by
  have h := run_loop_not_running fuel outcomes responses nows s hnr
  constructor
  · simp only [_run, hps, h]
  · exact h

/-- Witness for C8: the authority substitutes PENDING for the initial RUNNING
proposal, and the run returns it with no callable invocation. -/
theorem task_run_non_running_entry_witness :
    _run 5 [] [SetStateResponse.other pendingState] []
      = (RunOutcome.ok pendingState,
         [RunEvent.proposed ({ type := StateType.RUNNING } : State Nat)]) :=
  (task_run_non_running_entry 5 [] (SetStateResponse.other pendingState) [] []
    pendingState rfl rfl).1

/-- C2: an exception raised by the callable is captured as a FAILED terminal
proposal carrying the exception and a fixed diagnostic message, a returned
value as a COMPLETED terminal proposal carrying the value and a fixed
diagnostic message; when the terminal proposal is accepted, `_run` returns
that state with that payload (end-to-end scenarios A and B); and the callable's
exception never escapes the loop — the only fatal errors a run can raise are
the ABORT RuntimeError and the missing-timestamp TypeError. -/
theorem task_run_terminal_outcomes (α : Type) :
    (∀ e : α, terminal_state (Except.error e)
        = { type := StateType.FAILED,
            message := some "Task run encountered an exception.",
            data := some e } ) ∧
    (∀ v : α, terminal_state (Except.ok v)
        = { type := StateType.COMPLETED,
            message := some "Task run completed.",
            data := some v } ) ∧
    (∀ (o : Except α α) (nows : List Int),
        _run 2 [o] [SetStateResponse.accept none, SetStateResponse.accept none] nows
          = (RunOutcome.ok (terminal_state o),
             [RunEvent.proposed ({ type := StateType.RUNNING } : State α),
              RunEvent.ran o, RunEvent.proposed (terminal_state o)])) ∧
    (∀ (fuel : Nat) (outcomes : List (Except α α))
        (responses : List (SetStateResponse α)) (nows : List Int) (msg : String),
        (_run fuel outcomes responses nows).1 = RunOutcome.fatal msg →
        msg = "ABORT is not yet handled" ∨ msg = noneSubMsg) := by
  refine ⟨fun e => rfl, fun v => rfl, ?_, ?_⟩
  · intro o nows
    cases o <;> rfl
  · intro fuel outcomes responses nows msg h
    exact (_run_invariants fuel outcomes responses nows).2.2.1 msg h

/-- Witness for C2 at a concrete aborting environment. -/
theorem task_run_terminal_outcomes_witness :
    ("ABORT is not yet handled" : String) = "ABORT is not yet handled"
      ∨ ("ABORT is not yet handled" : String) = noneSubMsg :=
  (task_run_terminal_outcomes Nat).2.2.2 1 [] [SetStateResponse.abort] []
    "ABORT is not yet handled" rfl

/-- C9: a successful invocation mutates only the dynamic-key counter,
incrementing it by exactly 1, while name, callable, description, tags, task
key, max_retries and retry_delay_seconds remain unchanged; construction
initializes the counter to 0, so N successful invocations yield
dynamic-key = N. -/
theorem task_call_success_frame :
    (∀ (self : Task) (ctx : FlowRunContext),
        (Task.call self (some ctx) false).2.2
            = Except.ok { task_run_id := ctx.next_task_run_id } ∧
        (Task.call self (some ctx) false).1
            = { self with dynamic_key := self.dynamic_key + 1 } ∧
        (Task.call self (some ctx) false).1.dynamic_key = self.dynamic_key + 1 ∧
        (Task.call self (some ctx) false).1.name = self.name ∧
        (Task.call self (some ctx) false).1.fn = self.fn ∧
        (Task.call self (some ctx) false).1.description = self.description ∧
        (Task.call self (some ctx) false).1.tags = self.tags ∧
        (Task.call self (some ctx) false).1.task_key = self.task_key ∧
        (Task.call self (some ctx) false).1.max_retries = self.max_retries ∧
        (Task.call self (some ctx) false).1.retry_delay_seconds
            = self.retry_delay_seconds) ∧
    (∀ (nm : Option String) (f : Callable) (d : Option String)
        (tg : List String) (m r : Nat) (t : Task),
        Task.init nm (some f) d tg m r = Except.ok t → t.dynamic_key = 0) ∧
    (∀ (t : Task) (ctx : FlowRunContext) (n : Nat), t.dynamic_key = 0 →
        (Task.callN ctx n t).dynamic_key = n) := by
  refine ⟨?_, ?_, ?_⟩
  · intro self ctx
    exact ⟨rfl, rfl, rfl, rfl, rfl, rfl, rfl, rfl, rfl, rfl⟩
  · intro nm f d tg m r t h
    simp only [Task.init] at h
    rw [← Except.ok.inj h]
  · intro t ctx n h
    rw [callN_dynamic_key ctx n t, h]
    exact Nat.zero_add n

/-- Witness for C9: three successful invocations of a freshly constructed task
yield dynamic-key 3. -/
theorem task_call_success_frame_witness :
    (Task.callN demoCtx 3 demoTask).dynamic_key = 3 :=
  task_call_success_frame.2.2 demoTask demoCtx 3 rfl

/-- C10: when `Task.__call__` raises a usage error, the task object is left
completely unchanged — in particular the dynamic-key counter is not
incremented. -/
theorem task_call_error_atomic (self : Task) (ctx : FlowRunContext) (b : Bool) :
    (Task.call self none b).1 = self ∧
    (Task.call self (some ctx) true).1 = self ∧
    (Task.call self none b).1.dynamic_key = self.dynamic_key ∧
    (Task.call self (some ctx) true).1.dynamic_key = self.dynamic_key :=
  ⟨rfl, rfl, rfl, rfl⟩

/-- C1 fails as stated: with the authority accepting RUNNING, substituting a
SCHEDULED state for the terminal proposal, and substituting a SCHEDULED state
again for the subsequent RETRYING proposal, the loop exits and `_run` returns
a SCHEDULED effective state after the RETRYING proposal — an exit that is
neither a non-SCHEDULED effective state after a terminal proposal nor a fatal
ABORT error. -/
theorem task_run_scheduled_exit_counterexample :
    (_run 3 [Except.ok (1 : Nat)]
        [SetStateResponse.accept none, SetStateResponse.other (schedState 5),
         SetStateResponse.other (schedState 9)] [0]).1
      = RunOutcome.ok (schedState 9) ∧
    (schedState 9).is_scheduled = true ∧
    RunEvent.proposed (Retrying Nat)
        ∈ (_run 3 [Except.ok (1 : Nat)]
            [SetStateResponse.accept none, SetStateResponse.other (schedState 5),
             SetStateResponse.other (schedState 9)] [0]).2 := by
  decide

/-- C1 amended: whenever the effective state returned for a terminal proposal
is SCHEDULED with timestamp `t` while the clock reads `n`, the machine sleeps
exactly `max (t - n) 0` seconds (never a negative duration), proposes a
RETRYING state, and loops back to the running-check; every sleep of a run is
nonnegative; and the loop's exits are a non-running effective state returned
by the protocol — which, when returned for the RETRYING proposal, may also be
SCHEDULED — or, under authority responses satisfying the spec's
SCHEDULED-timestamp invariant, a fatal ABORT error. -/
theorem task_run_scheduled_retry_amended (α : Type) :
    (∀ (fuel : Nat) (o : Except α α) (outcomes : List (Except α α))
        (r1 r2 : SetStateResponse α) (responses : List (SetStateResponse α))
        (n t : Int) (nows : List Int) (state s1 s2 : State α),
        state.is_running = true →
        propose_state r1 (terminal_state o) = Except.ok s1 →
        s1.is_scheduled = true →
        s1.state_details.scheduled_time = some t →
        propose_state r2 (Retrying α) = Except.ok s2 →
        run_loop (fuel + 1) (o :: outcomes) (r1 :: r2 :: responses) (n :: nows) state
          = ((run_loop fuel outcomes responses nows s2).1,
             RunEvent.ran o :: RunEvent.proposed (terminal_state o) ::
               RunEvent.slept (max (t - n) 0) :: RunEvent.proposed (Retrying α) ::
               (run_loop fuel outcomes responses nows s2).2)) ∧
    (∀ (fuel : Nat) (outcomes : List (Except α α))
        (responses : List (SetStateResponse α)) (nows : List Int) (d : Int),
        RunEvent.slept d ∈ (_run fuel outcomes responses nows).2 → 0 ≤ d) ∧
    (∀ (fuel : Nat) (outcomes : List (Except α α))
        (responses : List (SetStateResponse α)) (nows : List Int) (s' : State α),
        (_run fuel outcomes responses nows).1 = RunOutcome.ok s' →
        s'.is_running = false) ∧
    (∀ (fuel : Nat) (outcomes : List (Except α α))
        (responses : List (SetStateResponse α)) (nows : List Int) (msg : String),
        (∀ r ∈ responses, ResponseWF r = true) →
        (_run fuel outcomes responses nows).1 = RunOutcome.fatal msg →
        msg = "ABORT is not yet handled") := by
  refine ⟨?_, ?_, ?_, ?_⟩
  · intro fuel o outcomes r1 r2 responses n t nows state s1 s2 hr hps hsch hst hps2
    exact run_loop_scheduled_step fuel o outcomes r1 r2 responses n t nows
      state s1 s2 hr hps hsch hst hps2
  · intro fuel outcomes responses nows d h
    exact (_run_invariants fuel outcomes responses nows).2.1 d h
  · intro fuel outcomes responses nows s' h
    exact (_run_invariants fuel outcomes responses nows).1 s' h
  · intro fuel outcomes responses nows msg hwf h
    exact (_run_invariants fuel outcomes responses nows).2.2.2 hwf msg h

/-- Witness for C1 (amended) at a concrete scheduled retry. -/
theorem task_run_scheduled_retry_amended_witness :
    run_loop 1 [Except.ok (2 : Nat)]
        [SetStateResponse.other (schedState 5), SetStateResponse.accept none] [3]
        ({ type := StateType.RUNNING } : State Nat)
      = ((run_loop 0 [] [] [] (Retrying Nat)).1,
         RunEvent.ran (Except.ok 2) :: RunEvent.proposed (terminal_state (Except.ok 2)) ::
           RunEvent.slept (max (5 - 3) 0) :: RunEvent.proposed (Retrying Nat) ::
           (run_loop 0 [] [] [] (Retrying Nat)).2) :=
  (task_run_scheduled_retry_amended Nat).1 0 (Except.ok 2) []
    (SetStateResponse.other (schedState 5)) (SetStateResponse.accept none) [] 3 5 []
    ({ type := StateType.RUNNING } : State Nat) (schedState 5) (Retrying Nat)
    rfl rfl rfl rfl rfl

end Prefect
